import Mathlib

/-!
Verification of the validation / query-issuing layer of the
`api-render-postgres` Express application against its specification.

The repository holds several snapshots of the same server.  The main
snapshot is `src/index.js`; `src/unnamed/part_000`, `part_001` and
`part_002` are earlier variants of the same file.  Each handler is
embedded as a pure function from the parsed JSON request body (and an
abstract store oracle) to the HTTP response together with the list of SQL
statements it issued, mirroring the JavaScript control flow.
-/

set_option maxHeartbeats 1000000
set_option maxRecDepth 8192

namespace ApiRender

/-- Scalar JSON values as delivered by the body parser (`express.json()`).
The payload fields the handlers inspect are scalars; integers stand in for
JSON numbers. -/
inductive JsonV where
  | null : JsonV
  | bool (b : Bool) : JsonV
  | num (n : Int) : JsonV
  | str (s : String) : JsonV
deriving DecidableEq, Repr

/-- JavaScript truthiness of a JSON value (`!v` is `!truthy v`). -/
def truthy : JsonV → Bool
  | .null => false
  | .bool b => b
  | .num n => n != 0
  | .str s => s != ""

/-- A parsed JSON object: field name to value.  A missing key models a
field that is `undefined` after destructuring. -/
abbrev Body := List (String × JsonV)

/-- A row returned by the store, as the `pg` driver delivers it. -/
abbrev Row := List (String × JsonV)

/-- Field lookup (`req.body.x` / destructuring): first binding wins,
`none` models `undefined`. -/
def jget : Body → String → Option JsonV
  | [], _ => none
  | (k, v) :: rest, key => if k = key then some v else jget rest key

/-- JavaScript truthiness of a possibly-undefined value. -/
def truthyOpt : Option JsonV → Bool
  | none => false
  | some v => truthy v

/-- The JavaScript `x ?? null` applied to a possibly-undefined value:
`undefined` and `null` become `null`, anything else passes through. -/
def jsOrNull : Option JsonV → JsonV
  | none => .null
  | some .null => .null
  | some v => v

/-- Remove every binding of a key from a body: the payload with that
field omitted. -/
def removeField (b : Body) (k : String) : Body :=
  b.filter fun p => p.1 ≠ k

/-- One statement handed to `pool.query`: the statement text and the
positional bound parameters. -/
structure Query where
  sql : String
  params : List JsonV
deriving DecidableEq, Repr

/-- A JSON response body: a row array, a single row, or an error object
with one `error` field. -/
inductive RespBody where
  | rows (rs : List Row) : RespBody
  | row (r : Row) : RespBody
  | err (msg : String) : RespBody
deriving DecidableEq, Repr

/-- An HTTP response: status code and JSON body. -/
structure Response where
  status : Nat
  body : RespBody
deriving DecidableEq, Repr

/-- The store oracle: executing one statement either returns rows or
fails with an error message (`e.message`). -/
abbrev Db := Query → Except String (List Row)

/-- Does a character sequence contain `pat` as a contiguous subsequence? -/
def containsSeq (pat : List Char) : List Char → Bool
  | [] => pat.isEmpty
  | c :: cs => pat.isPrefixOf (c :: cs) || containsSeq pat cs

/-- Does a statement text contain an `ORDER BY` clause? -/
def hasOrderBy (s : String) : Bool :=
  containsSeq "ORDER BY".data s.data

/-- The whitespace characters JavaScript's `String.prototype.trim`
removes (the ASCII ones; the handlers only ever see ASCII names). -/
def jsWhitespace (c : Char) : Bool :=
  c == ' ' || c == '\t' || c == '\n' || c == '\r' || c == '\x0b' || c == '\x0c'

/-- JavaScript's `.trim()`: strip leading and trailing whitespace. -/
def jsTrim (s : String) : String :=
  ⟨((s.data.dropWhile jsWhitespace).reverse.dropWhile jsWhitespace).reverse⟩

/-- The identifier check of `part_000`: the regular expression
`^[a-zA-Z_][a-zA-Z0-9_]*$`. -/
def matchesIdent (s : String) : Bool :=
  match s.data with
  | [] => false
  | c :: cs => (c.isAlpha || c == '_') && cs.all fun d => d.isAlpha || d.isDigit || d == '_'

namespace IndexJs

/-! Handlers of `src/index.js`, the main snapshot. -/

def productosSelectSql : String := "SELECT * FROM productos ORDER BY id_producto"

def clientesSelectSql : String := "SELECT * FROM clientes ORDER BY id_cliente"

def ordenesSelectSql : String := "SELECT * FROM ordenes ORDER BY id_orden"

def insertProductosSql : String :=
  "\n      INSERT INTO productos (nombre, descripcion, precio, stock, id_categoria)\n      VALUES ($1, $2, $3, $4, $5)\n      RETURNING *;\n    "

def insertClientesSql : String :=
  "\n      INSERT INTO clientes (nombre, email, direccion, telefono)\n      VALUES ($1, $2, $3, $4)\n      RETURNING *;\n    "

def checkClienteSql : String := "SELECT 1 FROM clientes WHERE id_cliente = $1"

def insertOrdenesSql : String :=
  "\n      INSERT INTO ordenes (tipo_orden, id_cliente)\n      VALUES ($1, $2)\n      RETURNING *;\n    "

def checkTablesSql : String :=
  "\n      SELECT table_name\n      FROM information_schema.tables\n      WHERE table_schema = 'public'\n      ORDER BY table_name;\n    "

def checkColumnsSql : String :=
  "\n      SELECT \n        column_name,\n        data_type,\n        is_nullable,\n        column_default\n      FROM information_schema.columns\n      WHERE table_schema = 'public'\n        AND table_name = $1\n      ORDER BY ordinal_position;\n      "

/-- `GET /api/productos`. -/
def getProductos (db : Db) : Response × List Query :=
  let q : Query := ⟨productosSelectSql, []⟩
  match db q with
  | .ok rows => (⟨200, .rows rows⟩, [q])
  | .error m => (⟨500, .err m⟩, [q])

/-- `GET /api/clientes`. -/
def getClientes (db : Db) : Response × List Query :=
  let q : Query := ⟨clientesSelectSql, []⟩
  match db q with
  | .ok rows => (⟨200, .rows rows⟩, [q])
  | .error m => (⟨500, .err m⟩, [q])

/-- `GET /api/ordenes`. -/
def getOrdenes (db : Db) : Response × List Query :=
  let q : Query := ⟨ordenesSelectSql, []⟩
  match db q with
  | .ok rows => (⟨200, .rows rows⟩, [q])
  | .error m => (⟨500, .err m⟩, [q])

/-- `POST /api/productos`. -/
def postProductos (db : Db) (body : Body) : Response × List Query :=
  let nombre := jget body "nombre"
  let descripcion := jget body "descripcion"
  let precio := jget body "precio"
  let stock := jget body "stock"
  let id_categoria := jget body "id_categoria"
  if !truthyOpt nombre || precio == none || stock == none then
    (⟨400, .err "Faltan campos requeridos: nombre, precio, stock"⟩, [])
  else
    let q : Query := ⟨insertProductosSql,
      [nombre.getD .null, jsOrNull descripcion, precio.getD .null, stock.getD .null,
        jsOrNull id_categoria]⟩
    match db q with
    | .ok rows => (⟨201, .row (rows.headD [])⟩, [q])
    | .error m => (⟨500, .err m⟩, [q])

/-- `POST /api/clientes`. -/
def postClientes (db : Db) (body : Body) : Response × List Query :=
  let nombre := jget body "nombre"
  let email := jget body "email"
  let direccion := jget body "direccion"
  let telefono := jget body "telefono"
  if !truthyOpt nombre then
    (⟨400, .err "Falta campo requerido: nombre"⟩, [])
  else
    let q : Query := ⟨insertClientesSql,
      [nombre.getD .null, jsOrNull email, jsOrNull direccion, jsOrNull telefono]⟩
    match db q with
    | .ok rows => (⟨201, .row (rows.headD [])⟩, [q])
    | .error m => (⟨500, .err m⟩, [q])

/-- The insert step of `POST /api/ordenes`, shared by the two paths that
reach it (`pre` is the list of statements issued before it). -/
def ordenesInsertStep (db : Db) (tipo_orden id_cliente : Option JsonV)
    (pre : List Query) : Response × List Query :=
  let q : Query := ⟨insertOrdenesSql, [tipo_orden.getD .null, jsOrNull id_cliente]⟩
  match db q with
  | .ok rows => (⟨201, .row (rows.headD [])⟩, pre ++ [q])
  | .error m => (⟨500, .err m⟩, pre ++ [q])

/-- `POST /api/ordenes`. -/
def postOrdenes (db : Db) (body : Body) : Response × List Query :=
  let tipo_orden := jget body "tipo_orden"
  let id_cliente := jget body "id_cliente"
  if !truthyOpt tipo_orden then
    (⟨400, .err "Falta campo requerido: tipo_orden"⟩, [])
  else
    if id_cliente != none && id_cliente != some JsonV.null then
      let qc : Query := ⟨checkClienteSql, [id_cliente.getD .null]⟩
      match db qc with
      | .error m => (⟨500, .err m⟩, [qc])
      | .ok checkRows =>
        if checkRows.length == 0 then
          (⟨400, .err "id_cliente no existe en clientes (violación de FK)"⟩, [qc])
        else
          ordenesInsertStep db tipo_orden id_cliente [qc]
    else
      ordenesInsertStep db tipo_orden id_cliente []

/-- `GET /api/check-tables`. -/
def checkTables (db : Db) : Response × List Query :=
  let q : Query := ⟨checkTablesSql, []⟩
  match db q with
  | .ok rows => (⟨200, .rows rows⟩, [q])
  | .error m => (⟨500, .err m⟩, [q])

/-- `GET /api/check-columns/:tabla`: no identifier check in this snapshot,
the route parameter goes straight into the bound parameter list. -/
def checkColumns (db : Db) (tabla : String) : Response × List Query :=
  let q : Query := ⟨checkColumnsSql, [JsonV.str tabla]⟩
  match db q with
  | .error m => (⟨500, .err m⟩, [q])
  | .ok rows =>
    if rows.length == 0 then
      (⟨404, .err ("Tabla '" ++ tabla ++ "' no existe o no tiene columnas.")⟩, [q])
    else
      (⟨200, .rows rows⟩, [q])

end IndexJs

namespace Part000

/-! Handlers of `src/unnamed/part_000`, the variant with the identifier
syntax check on `check-columns`. -/

def checkColumnsSql : String :=
  "\n      SELECT\n        column_name,\n        data_type,\n        is_nullable,\n        column_default\n      FROM information_schema.columns\n      WHERE table_schema = 'public'\n        AND table_name = $1\n      ORDER BY ordinal_position;\n      "

/-- `GET /api/check-columns/:tabla` of `part_000`.
`(req.params.tabla || "").trim()`: the route parameter is always a
string, so `|| ""` only maps the empty string to itself. -/
def checkColumns (db : Db) (tablaParam : String) : Response × List Query :=
  let tabla := jsTrim (if tablaParam = "" then "" else tablaParam)
  if !matchesIdent tabla then
    (⟨400, .err "Nombre de tabla inválido"⟩, [])
  else
    let q : Query := ⟨checkColumnsSql, [JsonV.str tabla]⟩
    match db q with
    | .error m => (⟨500, .err m⟩, [q])
    | .ok rows =>
      if rows.length == 0 then
        (⟨404, .err ("Tabla '" ++ tabla ++ "' no existe o no tiene columnas")⟩, [q])
      else
        (⟨200, .rows rows⟩, [q])

end Part000

namespace Part001

/-! Read handlers of `src/unnamed/part_001`: the SELECTs carry no
ORDER BY clause. -/

def productosSelectSql : String := "SELECT * FROM productos"

def clientesSelectSql : String := "SELECT * FROM clientes"

def ordenesSelectSql : String := "SELECT * FROM ordenes"

/-- `GET /api/productos` of `part_001`. -/
def getProductos (db : Db) : Response × List Query :=
  let q : Query := ⟨productosSelectSql, []⟩
  match db q with
  | .ok rows => (⟨200, .rows rows⟩, [q])
  | .error m => (⟨500, .err m⟩, [q])

/-- `GET /api/clientes` of `part_001`. -/
def getClientes (db : Db) : Response × List Query :=
  let q : Query := ⟨clientesSelectSql, []⟩
  match db q with
  | .ok rows => (⟨200, .rows rows⟩, [q])
  | .error m => (⟨500, .err m⟩, [q])

/-- `GET /api/ordenes` of `part_001`. -/
def getOrdenes (db : Db) : Response × List Query :=
  let q : Query := ⟨ordenesSelectSql, []⟩
  match db q with
  | .ok rows => (⟨200, .rows rows⟩, [q])
  | .error m => (⟨500, .err m⟩, [q])

end Part001

/-! ### A store model, for the claims that speak about the rows the store
returns.  The database itself is PostgreSQL, outside this repository, so
its semantics on the fixed statements the handlers issue is modelled from
the spec. -/

/-- The integer value of a row's column (used as sort key; the primary-key
columns hold integers). -/
def rowInt (col : String) (r : Row) : Int :=
  match jget r col with
  | some (.num n) => n
  | _ => 0

/-- Comparison of two rows by an integer column, as a boolean relation. -/
def leKey (col : String) (a b : Row) : Bool :=
  rowInt col a ≤ rowInt col b

/-- Insert an element into a list assumed sorted under `le`. -/
def insertSorted (le : α → α → Bool) (a : α) : List α → List α
  | [] => [a]
  | b :: bs => if le a b then a :: b :: bs else b :: insertSorted le a bs

/-- Insertion sort under a boolean comparison. -/
def insertionSortBy (le : α → α → Bool) : List α → List α
  | [] => []
  | a :: as => insertSorted le a (insertionSortBy le as)

/-- Modelled from the spec: `ORDER BY <col>` delivers the table's rows
sorted ascending by that column. -/
def sortRows (col : String) (rs : List Row) : List Row :=
  insertionSortBy (leKey col) rs

/-- The tables the read endpoints project, as lists of rows. -/
structure ReadStore where
  productos : List Row
  clientes : List Row
  ordenes : List Row

/-- Modelled from the spec: the store executing the three fixed read
statements of `src/index.js` — every row and every column of the named
table, sorted ascending by the primary-key column named in the
`ORDER BY`.  Any other statement is out of this model's scope. -/
def readDb (s : ReadStore) : Db := fun q =>
  if q.sql = IndexJs.productosSelectSql then .ok (sortRows "id_producto" s.productos)
  else if q.sql = IndexJs.clientesSelectSql then .ok (sortRows "id_cliente" s.clientes)
  else if q.sql = IndexJs.ordenesSelectSql then .ok (sortRows "id_orden" s.ordenes)
  else .error "statement outside the read model"

/-- The store state `POST /api/ordenes` interacts with: the set of
existing client identifiers, and the identifier the next inserted order
will receive. -/
structure OrdStore where
  clientes : List Int
  nextOrden : Int

/-- Modelled from the spec: the store executing the two fixed statements
of `POST /api/ordenes` — the point lookup `SELECT 1 FROM clientes WHERE
id_cliente = $1` returns one row per matching client, and the `INSERT ...
RETURNING *` returns the inserted order row with its store-assigned
identifier. -/
def ordDb (s : OrdStore) : Db := fun q =>
  if q.sql = IndexJs.checkClienteSql then
    match q.params with
    | [JsonV.num i] =>
      .ok (if s.clientes.contains i then [[("?column?", JsonV.num 1)]] else [])
    | _ => .error "invalid input syntax for type integer"
  else if q.sql = IndexJs.insertOrdenesSql then
    match q.params with
    | [tipo, idc] =>
      .ok [[("id_orden", JsonV.num s.nextOrden), ("tipo_orden", tipo), ("id_cliente", idc)]]
    | _ => .error "statement outside the order model"
  else .error "statement outside the order model"

/-! ### Concrete inputs used to exercise the handlers. -/

/-- A store oracle that answers every statement with one product row. -/
def dbOkProd : Db := fun _ => .ok [[("id_producto", JsonV.num 1)]]

/-- A store oracle that answers every statement with one client row. -/
def dbOkCli : Db := fun _ => .ok [[("id_cliente", JsonV.num 1)]]

/-- A store oracle that answers every statement with zero rows. -/
def dbEmpty : Db := fun _ => .ok []

/-- A product payload whose `precio` and `stock` are not numeric. -/
def badPrecioBody : Body :=
  [("nombre", .str "Widget"), ("precio", .str "abc"), ("stock", .str "many")]

/-- A client payload whose `nombre` is whitespace only. -/
def wsNombreBody : Body := [("nombre", .str "   ")]

/-- A product payload with `nombre` missing. -/
def missingNombreBody : Body := [("precio", .num 10), ("stock", .num 5)]

/-- A payload whose `nombre` is supplied but JSON-falsy (the number 0). -/
def falsyNombreBody : Body :=
  [("nombre", .num 0), ("precio", .num 10), ("stock", .num 5)]

/-- A well-formed product payload. -/
def goodProdBody : Body :=
  [("nombre", .str "Mesa"), ("precio", .num 10), ("stock", .num 5)]

/-- An order store with one client, number 7. -/
def ordStore0 : OrdStore := ⟨[7], 41⟩

/-- An order payload referencing the missing client 9. -/
def ordBadBody : Body := [("tipo_orden", .str "venta"), ("id_cliente", .num 9)]

/-- An order payload with `id_cliente` explicitly `null`. -/
def ordNullBody : Body := [("tipo_orden", .str "venta"), ("id_cliente", JsonV.null)]

/-! ### Helper lemmas. -/

theorem insertSorted_perm (le : α → α → Bool) (a : α) (l : List α) :
    List.Perm (insertSorted le a l) (a :: l) := by
  induction l with
  | nil => exact List.Perm.refl _
  | cons b bs ih =>
    simp only [insertSorted]
    split
    · exact List.Perm.refl _
    · exact (ih.cons b).trans (List.Perm.swap a b bs)

theorem insertionSortBy_perm (le : α → α → Bool) (l : List α) :
    List.Perm (insertionSortBy le l) l := by
  induction l with
  | nil => exact List.Perm.refl _
  | cons a as ih =>
    exact (insertSorted_perm le a (insertionSortBy le as)).trans (ih.cons a)

theorem insertSorted_pairwise (le : α → α → Bool)
    (htrans : ∀ a b c, le a b = true → le b c = true → le a c = true)
    (htotal : ∀ a b, le a b = true ∨ le b a = true)
    (a : α) (l : List α) (hl : l.Pairwise fun x y => le x y = true) :
    (insertSorted le a l).Pairwise fun x y => le x y = true := by
  induction l with
  | nil => simp [insertSorted]
  | cons b bs ih =>
    rcases hl with - | ⟨hb, hbs⟩
    simp only [insertSorted]
    split
    · refine List.Pairwise.cons ?_ (List.Pairwise.cons hb hbs)
      intro y hy
      rcases List.mem_cons.mp hy with rfl | hy
      · assumption
      · exact htrans a b y (by assumption) (hb y hy)
    · refine List.Pairwise.cons ?_ (ih hbs)
      intro y hy
      rcases List.mem_cons.mp ((insertSorted_perm le a bs).mem_iff.mp hy) with rfl | h
      · rcases htotal y b with h | h
        · exact absurd h (by assumption)
        · exact h
      · exact hb y h

theorem insertionSortBy_pairwise (le : α → α → Bool)
    (htrans : ∀ a b c, le a b = true → le b c = true → le a c = true)
    (htotal : ∀ a b, le a b = true ∨ le b a = true)
    (l : List α) :
    (insertionSortBy le l).Pairwise fun x y => le x y = true := by
  induction l with
  | nil => simp [insertionSortBy]
  | cons a as ih => exact insertSorted_pairwise le htrans htotal a _ ih

theorem leKey_trans (col : String) (a b c : Row)
    (h₁ : leKey col a b = true) (h₂ : leKey col b c = true) :
    leKey col a c = true := by
  simp only [leKey, decide_eq_true_eq] at *
  omega

theorem leKey_total (col : String) (a b : Row) :
    leKey col a b = true ∨ leKey col b a = true := by
  simp only [leKey, decide_eq_true_eq]
  omega

theorem sortRows_pairwise (col : String) (rs : List Row) :
    (sortRows col rs).Pairwise fun a b => leKey col a b = true :=
  insertionSortBy_pairwise _ (leKey_trans col) (leKey_total col) rs

theorem sortRows_perm (col : String) (rs : List Row) :
    List.Perm (sortRows col rs) rs :=
  insertionSortBy_perm _ rs

theorem jget_removeField_self (b : Body) (k : String) :
    jget (removeField b k) k = none := by
  induction b with
  | nil => rfl
  | cons p rest ih =>
    by_cases h : p.1 = k
    · simpa [removeField, List.filter_cons, h] using ih
    · simpa [removeField, List.filter_cons, jget, h] using ih

theorem jget_removeField_ne (b : Body) (k k' : String) (h : k' ≠ k) :
    jget (removeField b k) k' = jget b k' := by
  induction b with
  | nil => rfl
  | cons p rest ih =>
    simp only [removeField, List.filter_cons, decide_not] at *
    by_cases hp : p.1 = k
    · have hkk' : ¬(k = k') := fun hh => h hh.symm
      simp [hp, jget, hkk', ih]
    · simp [hp, jget, ih]

/-- The product insert once the presence guard passes: the supplied
values go to the statement verbatim and the outcome is 201 or 500. -/
theorem postProductos_guard_passed (db : Db) (body : Body) (v p s : JsonV)
    (hn : jget body "nombre" = some v) (hv : truthy v = true)
    (hp : jget body "precio" = some p) (hs : jget body "stock" = some s) :
    (IndexJs.postProductos db body).2 =
      [⟨IndexJs.insertProductosSql,
        [v, jsOrNull (jget body "descripcion"), p, s,
         jsOrNull (jget body "id_categoria")]⟩] ∧
    ((IndexJs.postProductos db body).1.status = 201 ∨
     (IndexJs.postProductos db body).1.status = 500) := by
  simp only [IndexJs.postProductos, hn, hp, hs, truthyOpt, hv]
  simp only [Bool.not_true, Bool.false_or, beq_iff_eq, reduceCtorEq, if_false]
  cases hdb : db ⟨IndexJs.insertProductosSql,
      [v, jsOrNull (jget body "descripcion"), p, s,
       jsOrNull (jget body "id_categoria")]⟩ <;> simp [hdb]

theorem ordenesInsertStep_queries (db : Db) (t idc : Option JsonV) (pre : List Query) :
    (IndexJs.ordenesInsertStep db t idc pre).2 =
      pre ++ [⟨IndexJs.insertOrdenesSql, [t.getD .null, jsOrNull idc]⟩] := by
  cases hdb : db ⟨IndexJs.insertOrdenesSql, [t.getD .null, jsOrNull idc]⟩ <;>
    simp [IndexJs.ordenesInsertStep, hdb]

theorem insertOrdenes_ne_checkCliente :
    (IndexJs.insertOrdenesSql = IndexJs.checkClienteSql) = False := by
  simp [IndexJs.insertOrdenesSql, IndexJs.checkClienteSql]

/-! ### The claims. -/

/-- C1 counterexample: a product payload whose `precio` is the string
"abc" and whose `stock` is the string "many" passes validation — the
endpoint answers 201 and issues the insert with the raw values, it does
not fail with InvalidType / a 400-class response. -/
theorem postProductos_no_type_check_cex :
    (IndexJs.postProductos dbOkProd badPrecioBody).1.status = 201 ∧
    (IndexJs.postProductos dbOkProd badPrecioBody).2 =
      [⟨IndexJs.insertProductosSql,
        [.str "Widget", .null, .str "abc", .str "many", .null]⟩] := by
  decide

/-- C1 (amended): the product validator checks presence only — `nombre`
truthy, `precio` and `stock` not `undefined`.  No numeric or integer
parse is attempted: whatever values are supplied are passed to the insert
statement verbatim, and the response is 201 or (on a store failure)
500, never a 400 InvalidType. -/
theorem postProductos_values_passed_unchecked (db : Db) (body : Body) (v p s : JsonV)
    (hn : jget body "nombre" = some v) (hv : truthy v = true)
    (hp : jget body "precio" = some p) (hs : jget body "stock" = some s) :
    (IndexJs.postProductos db body).2 =
      [⟨IndexJs.insertProductosSql,
        [v, jsOrNull (jget body "descripcion"), p, s,
         jsOrNull (jget body "id_categoria")]⟩] ∧
    ((IndexJs.postProductos db body).1.status = 201 ∨
     (IndexJs.postProductos db body).1.status = 500) :=
  postProductos_guard_passed db body v p s hn hv hp hs

/-- Witness for C1's amended theorem at the concrete ill-typed payload. -/
theorem postProductos_values_passed_unchecked_witness :
    (IndexJs.postProductos dbOkProd badPrecioBody).2 =
      [⟨IndexJs.insertProductosSql,
        [.str "Widget", jsOrNull (jget badPrecioBody "descripcion"), .str "abc",
         .str "many", jsOrNull (jget badPrecioBody "id_categoria")]⟩] ∧
    ((IndexJs.postProductos dbOkProd badPrecioBody).1.status = 201 ∨
     (IndexJs.postProductos dbOkProd badPrecioBody).1.status = 500) :=
  postProductos_values_passed_unchecked dbOkProd badPrecioBody
    (.str "Widget") (.str "abc") (.str "many") rfl rfl rfl rfl

/-- C3: a product payload missing `nombre`, `precio` or `stock` is
answered 400 and no statement reaches the store (the issued-statement
list is empty, so the store state is untouched). -/
theorem postProductos_missing_required_rejected (db : Db) (body : Body)
    (h : jget body "nombre" = none ∨ jget body "precio" = none ∨
      jget body "stock" = none) :
    IndexJs.postProductos db body =
      (⟨400, .err "Faltan campos requeridos: nombre, precio, stock"⟩, []) := by
  rcases h with h | h | h <;> simp [IndexJs.postProductos, h, truthyOpt]

/-- Witness for C3 at a payload with `nombre` missing. -/
theorem postProductos_missing_required_rejected_witness :
    IndexJs.postProductos dbOkProd missingNombreBody =
      (⟨400, .err "Faltan campos requeridos: nombre, precio, stock"⟩, []) :=
  postProductos_missing_required_rejected dbOkProd missingNombreBody (Or.inl rfl)

/-- C9: a `nombre` supplied with any JSON-falsy value (`""`, `0`,
`false`, `null` — exactly the values with `truthy v = false`) is treated
as missing by both creation endpoints: same 400 missing-field response,
no statement issued, and the result coincides with the same payload with
the field removed. -/
theorem falsy_nombre_treated_as_missing (db : Db) (body : Body) (v : JsonV)
    (hn : jget body "nombre" = some v) (hv : truthy v = false) :
    IndexJs.postProductos db body =
      (⟨400, .err "Faltan campos requeridos: nombre, precio, stock"⟩, []) ∧
    IndexJs.postClientes db body =
      (⟨400, .err "Falta campo requerido: nombre"⟩, []) ∧
    IndexJs.postProductos db body =
      IndexJs.postProductos db (removeField body "nombre") ∧
    IndexJs.postClientes db body =
      IndexJs.postClientes db (removeField body "nombre") := by
  refine ⟨?_, ?_, ?_, ?_⟩
  · simp [IndexJs.postProductos, hn, truthyOpt, hv]
  · simp [IndexJs.postClientes, hn, truthyOpt, hv]
  · simp [IndexJs.postProductos, hn, truthyOpt, hv, jget_removeField_self]
  · simp [IndexJs.postClientes, hn, truthyOpt, hv, jget_removeField_self]

/-- Witness for C9 at `nombre = 0`. -/
theorem falsy_nombre_treated_as_missing_witness :
    IndexJs.postProductos dbOkProd falsyNombreBody =
      (⟨400, .err "Faltan campos requeridos: nombre, precio, stock"⟩, []) :=
  (falsy_nombre_treated_as_missing dbOkProd falsyNombreBody (.num 0) rfl rfl).1

/-- C5 counterexample: a client payload whose `nombre` is whitespace only
is accepted — 201, insert issued — and the inserted value is the
untrimmed string, refuting both the trimmed-non-empty check and the
trimming of text fields. -/
theorem postClientes_whitespace_name_cex :
    IndexJs.postClientes dbOkCli wsNombreBody =
      (⟨201, .row [("id_cliente", JsonV.num 1)]⟩,
       [⟨IndexJs.insertClientesSql, [.str "   ", .null, .null, .null]⟩]) := by
  decide

/-- C5 (amended): `nombre` must be present and JS-truthy (a whitespace-only
string is truthy, hence accepted); on success the record inserted carries
the supplied text verbatim — no trimming — with omitted optional fields
defaulted to null. -/
theorem create_inserts_verbatim_null_defaults (db : Db) (body : Body) (v : JsonV)
    (hn : jget body "nombre" = some v) (hv : truthy v = true) :
    (IndexJs.postClientes db body).2 =
      [⟨IndexJs.insertClientesSql,
        [v, jsOrNull (jget body "email"), jsOrNull (jget body "direccion"),
         jsOrNull (jget body "telefono")]⟩] ∧
    (∀ p s, jget body "precio" = some p → jget body "stock" = some s →
      (IndexJs.postProductos db body).2 =
        [⟨IndexJs.insertProductosSql,
          [v, jsOrNull (jget body "descripcion"), p, s,
           jsOrNull (jget body "id_categoria")]⟩]) := by
  constructor
  · simp only [IndexJs.postClientes, hn, truthyOpt, hv]
    simp only [Bool.not_true, if_false]
    cases hdb : db ⟨IndexJs.insertClientesSql,
        [v, jsOrNull (jget body "email"), jsOrNull (jget body "direccion"),
         jsOrNull (jget body "telefono")]⟩ <;> simp [hdb]
  · intro p s hp hs
    exact (postProductos_guard_passed db body v p s hn hv hp hs).1

/-- Witness for C5's amended theorem at the whitespace-only name. -/
theorem create_inserts_verbatim_null_defaults_witness :
    (IndexJs.postClientes dbOkCli wsNombreBody).2 =
      [⟨IndexJs.insertClientesSql,
        [.str "   ", jsOrNull (jget wsNombreBody "email"),
         jsOrNull (jget wsNombreBody "direccion"),
         jsOrNull (jget wsNombreBody "telefono")]⟩] :=
  (create_inserts_verbatim_null_defaults dbOkCli wsNombreBody (.str "   ") rfl rfl).1

/-- C10: an order payload whose `id_cliente` is explicitly `null` behaves
exactly like the payload with the field omitted; every statement it
issues is the insert (so no client-existence lookup), and that insert's
second bound parameter — the client reference — is `null`. -/
theorem null_id_cliente_like_omitted (db : Db) (body : Body)
    (h : jget body "id_cliente" = some JsonV.null) :
    IndexJs.postOrdenes db body =
      IndexJs.postOrdenes db (removeField body "id_cliente") ∧
    ∀ q ∈ (IndexJs.postOrdenes db body).2,
      q.sql = IndexJs.insertOrdenesSql ∧ q.params.get? 1 = some JsonV.null := by
  have htipo : jget (removeField body "id_cliente") "tipo_orden" =
      jget body "tipo_orden" :=
    jget_removeField_ne body "id_cliente" "tipo_orden" (by decide)
  constructor
  · simp [IndexJs.postOrdenes, h, jget_removeField_self, htipo,
      IndexJs.ordenesInsertStep, jsOrNull]
  · intro q hq
    by_cases ht : truthyOpt (jget body "tipo_orden") = true
    · simp [IndexJs.postOrdenes, h, ht, ordenesInsertStep_queries, jsOrNull] at hq
      subst hq
      exact ⟨rfl, rfl⟩
    · simp only [Bool.not_eq_true] at ht
      simp [IndexJs.postOrdenes, ht] at hq

/-- Witness for C10 at a concrete payload with `id_cliente: null`. -/
theorem null_id_cliente_like_omitted_witness :
    IndexJs.postOrdenes (ordDb ordStore0) ordNullBody =
      IndexJs.postOrdenes (ordDb ordStore0) (removeField ordNullBody "id_cliente") :=
  (null_id_cliente_like_omitted (ordDb ordStore0) ordNullBody rfl).1

/-- C2: order creation against the modelled store, with a truthy
`tipo_orden`: (a) a numeric `id_cliente` matching no client row yields a
400 response and only the existence lookup is issued — no insert reaches
the store; (b) an omitted `id_cliente` succeeds with a null client
reference in the inserted row (and no lookup is issued); (c) an
`id_cliente` of an existing client succeeds and the returned order row
references that client. -/
theorem postOrdenes_client_reference (s : OrdStore) (body : Body) (t : JsonV)
    (ht : jget body "tipo_orden" = some t) (htr : truthy t = true) :
    (∀ i : Int, jget body "id_cliente" = some (.num i) →
      s.clientes.contains i = false →
      IndexJs.postOrdenes (ordDb s) body =
        (⟨400, .err "id_cliente no existe en clientes (violación de FK)"⟩,
         [⟨IndexJs.checkClienteSql, [.num i]⟩])) ∧
    (jget body "id_cliente" = none →
      IndexJs.postOrdenes (ordDb s) body =
        (⟨201, .row [("id_orden", .num s.nextOrden), ("tipo_orden", t),
           ("id_cliente", .null)]⟩,
         [⟨IndexJs.insertOrdenesSql, [t, .null]⟩])) ∧
    (∀ i : Int, jget body "id_cliente" = some (.num i) →
      s.clientes.contains i = true →
      IndexJs.postOrdenes (ordDb s) body =
        (⟨201, .row [("id_orden", .num s.nextOrden), ("tipo_orden", t),
           ("id_cliente", .num i)]⟩,
         [⟨IndexJs.checkClienteSql, [.num i]⟩,
          ⟨IndexJs.insertOrdenesSql, [t, .num i]⟩])) := by
  refine ⟨fun i hi hc => ?_, fun hnone => ?_, fun i hi hc => ?_⟩
  · have hc' : ¬i ∈ s.clientes := by simpa using hc
    simp [IndexJs.postOrdenes, ht, truthyOpt, htr, hi, ordDb, hc']
  · simp [IndexJs.postOrdenes, ht, truthyOpt, htr, hnone,
      IndexJs.ordenesInsertStep, ordDb, insertOrdenes_ne_checkCliente, jsOrNull]
  · have hc' : i ∈ s.clientes := by simpa using hc
    simp [IndexJs.postOrdenes, ht, truthyOpt, htr, hi, ordDb, hc',
      IndexJs.ordenesInsertStep, insertOrdenes_ne_checkCliente, jsOrNull]

/-- Witness for C2 at the store with only client 7 and a payload
referencing the missing client 9. -/
theorem postOrdenes_client_reference_witness :
    IndexJs.postOrdenes (ordDb ordStore0) ordBadBody =
      (⟨400, .err "id_cliente no existe en clientes (violación de FK)"⟩,
       [⟨IndexJs.checkClienteSql, [.num 9]⟩]) :=
  (postOrdenes_client_reference ordStore0 ordBadBody (.str "venta") rfl rfl).1
    9 rfl (by decide)

theorem sqls_postProductos (db : Db) (body : Body) :
    ((IndexJs.postProductos db body).2.all
      fun q => q.sql == IndexJs.insertProductosSql) = true := by
  simp only [IndexJs.postProductos]
  repeat' split
  all_goals simp

theorem sqls_postClientes (db : Db) (body : Body) :
    ((IndexJs.postClientes db body).2.all
      fun q => q.sql == IndexJs.insertClientesSql) = true := by
  simp only [IndexJs.postClientes]
  repeat' split
  all_goals simp

theorem sqls_postOrdenes (db : Db) (body : Body) :
    ((IndexJs.postOrdenes db body).2.all fun q =>
      q.sql == IndexJs.checkClienteSql || q.sql == IndexJs.insertOrdenesSql) = true := by
  simp only [IndexJs.postOrdenes]
  repeat' split
  all_goals simp [ordenesInsertStep_queries]

theorem sqls_checkTables (db : Db) :
    ((IndexJs.checkTables db).2.all fun q => q.sql == IndexJs.checkTablesSql) = true := by
  simp only [IndexJs.checkTables]
  repeat' split
  all_goals simp

theorem sqls_checkColumnsIdx (db : Db) (tabla : String) :
    ((IndexJs.checkColumns db tabla).2.all
      fun q => q.sql == IndexJs.checkColumnsSql) = true := by
  simp only [IndexJs.checkColumns]
  repeat' split
  all_goals simp

theorem sqls_checkColumns000 (db : Db) (tabla : String) :
    ((Part000.checkColumns db tabla).2.all
      fun q => q.sql == Part000.checkColumnsSql) = true := by
  simp only [Part000.checkColumns]
  repeat' split
  all_goals simp

/-- C6: on every write or introspection endpoint, of every variant, each
statement handed to the store has one of the fixed constant texts — the
statement text never depends on the request payload or route parameter
(any two requests can only issue statements with identical text); the
payload only ever appears in the bound-parameter list. -/
theorem statements_fixed_text (db : Db) (body : Body) (tabla : String) :
    ((IndexJs.postProductos db body).2.all
      fun q => q.sql == IndexJs.insertProductosSql) = true ∧
    ((IndexJs.postClientes db body).2.all
      fun q => q.sql == IndexJs.insertClientesSql) = true ∧
    ((IndexJs.postOrdenes db body).2.all fun q =>
      q.sql == IndexJs.checkClienteSql || q.sql == IndexJs.insertOrdenesSql) = true ∧
    ((IndexJs.checkTables db).2.all
      fun q => q.sql == IndexJs.checkTablesSql) = true ∧
    ((IndexJs.checkColumns db tabla).2.all
      fun q => q.sql == IndexJs.checkColumnsSql) = true ∧
    ((Part000.checkColumns db tabla).2.all
      fun q => q.sql == Part000.checkColumnsSql) = true :=
  ⟨sqls_postProductos db body, sqls_postClientes db body, sqls_postOrdenes db body,
   sqls_checkTables db, sqls_checkColumnsIdx db tabla, sqls_checkColumns000 db tabla⟩

/-- C8: when the store fails with message `m`, every endpoint that
reached the store answers 500 with the underlying message in the `error`
body, with no distinction of failure kind — and the write endpoints that
answer otherwise are exactly those whose validation stopped them before
any statement was issued. -/
theorem store_failure_surfaces (m : String) (body : Body) (tabla : String) :
    (IndexJs.getProductos (fun _ => .error m)).1 = ⟨500, .err m⟩ ∧
    (IndexJs.getClientes (fun _ => .error m)).1 = ⟨500, .err m⟩ ∧
    (IndexJs.getOrdenes (fun _ => .error m)).1 = ⟨500, .err m⟩ ∧
    (IndexJs.checkTables (fun _ => .error m)).1 = ⟨500, .err m⟩ ∧
    (IndexJs.checkColumns (fun _ => .error m) tabla).1 = ⟨500, .err m⟩ ∧
    ((IndexJs.postProductos (fun _ => .error m) body).2 ≠ [] →
      (IndexJs.postProductos (fun _ => .error m) body).1 = ⟨500, .err m⟩) ∧
    ((IndexJs.postClientes (fun _ => .error m) body).2 ≠ [] →
      (IndexJs.postClientes (fun _ => .error m) body).1 = ⟨500, .err m⟩) ∧
    ((IndexJs.postOrdenes (fun _ => .error m) body).2 ≠ [] →
      (IndexJs.postOrdenes (fun _ => .error m) body).1 = ⟨500, .err m⟩) ∧
    ((Part000.checkColumns (fun _ => .error m) tabla).2 ≠ [] →
      (Part000.checkColumns (fun _ => .error m) tabla).1 = ⟨500, .err m⟩) := by
  refine ⟨rfl, rfl, rfl, rfl, rfl, ?_, ?_, ?_, ?_⟩
  · by_cases hc : (!truthyOpt (jget body "nombre") || jget body "precio" == none ||
        jget body "stock" == none) = true
    · intro hne
      simp [IndexJs.postProductos, hc] at hne
    · simp only [Bool.not_eq_true] at hc
      intro hne
      simp [IndexJs.postProductos, hc]
  · by_cases hc : (!truthyOpt (jget body "nombre")) = true
    · intro hne
      simp [IndexJs.postClientes, hc] at hne
    · simp only [Bool.not_eq_true] at hc
      intro hne
      simp [IndexJs.postClientes, hc]
  · by_cases hc : truthyOpt (jget body "tipo_orden") = true
    · intro hne
      by_cases hid : (jget body "id_cliente" != none &&
          jget body "id_cliente" != some JsonV.null) = true
      · simp [IndexJs.postOrdenes, hc, hid]
      · simp only [Bool.not_eq_true] at hid
        simp [IndexJs.postOrdenes, hc, hid, IndexJs.ordenesInsertStep]
    · simp only [Bool.not_eq_true] at hc
      intro hne
      simp [IndexJs.postOrdenes, hc] at hne
  · by_cases hp : matchesIdent (jsTrim (if tabla = "" then "" else tabla)) = true
    · intro hne
      simp [Part000.checkColumns, hp]
    · simp only [Bool.not_eq_true] at hp
      intro hne
      simp [Part000.checkColumns, hp] at hne

/-- Witness for C8: a store failure on a valid product payload surfaces
as 500 with the store's message. -/
theorem store_failure_surfaces_witness :
    (IndexJs.postProductos (fun _ => .error "boom") goodProdBody).1 =
      ⟨500, .err "boom"⟩ :=
  (store_failure_surfaces "boom" goodProdBody "productos").2.2.2.2.2.1 (by decide)

/-- C4 counterexample: in `src/index.js` the table name `bad;name`, which
violates the identifier pattern, is not answered 400 — the catalog query
is issued (with the name as a bound parameter) and the endpoint answers
404 on its empty result. -/
theorem checkColumns_no_pattern_check_cex :
    IndexJs.checkColumns dbEmpty "bad;name" =
      (⟨404, .err "Tabla 'bad;name' no existe o no tiene columnas."⟩,
       [⟨IndexJs.checkColumnsSql, [.str "bad;name"]⟩]) := by
  decide

/-- C4 (amended): the `part_000` variant behaves as claimed — a name
failing the identifier pattern is answered 400 with no statement issued,
and a passing name with zero catalog rows is answered 404; the
`src/index.js` variant has no pattern check: every name is bound into the
catalog query and a zero-row result is answered 404. -/
theorem checkColumns_validation (db : Db) (tabla : String) :
    (matchesIdent (jsTrim (if tabla = "" then "" else tabla)) = false →
      Part000.checkColumns db tabla = (⟨400, .err "Nombre de tabla inválido"⟩, [])) ∧
    (matchesIdent (jsTrim (if tabla = "" then "" else tabla)) = true →
      db ⟨Part000.checkColumnsSql,
        [.str (jsTrim (if tabla = "" then "" else tabla))]⟩ = .ok [] →
      Part000.checkColumns db tabla =
        (⟨404, .err ("Tabla '" ++ jsTrim (if tabla = "" then "" else tabla) ++
           "' no existe o no tiene columnas")⟩,
         [⟨Part000.checkColumnsSql,
           [.str (jsTrim (if tabla = "" then "" else tabla))]⟩])) ∧
    (db ⟨IndexJs.checkColumnsSql, [.str tabla]⟩ = .ok [] →
      IndexJs.checkColumns db tabla =
        (⟨404, .err ("Tabla '" ++ tabla ++ "' no existe o no tiene columnas.")⟩,
         [⟨IndexJs.checkColumnsSql, [.str tabla]⟩])) := by
  refine ⟨fun hm => ?_, fun hm hdb => ?_, fun hdb => ?_⟩
  · simp [Part000.checkColumns, hm]
  · simp [Part000.checkColumns, hm, hdb]
  · simp [IndexJs.checkColumns, hdb]

/-- Witness for C4's amended theorem: `part_000` rejects `bad;name` with
400 and issues nothing. -/
theorem checkColumns_validation_witness :
    Part000.checkColumns dbEmpty "bad;name" =
      (⟨400, .err "Nombre de tabla inválido"⟩, []) :=
  (checkColumns_validation dbEmpty "bad;name").1 (by decide)

/-- C7 counterexample: the `part_001` variant's `GET /api/productos`
issues `SELECT * FROM productos` with no ORDER BY clause, refuting the
claim that every read endpoint's SELECT carries a fixed ORDER BY on the
primary key. -/
theorem part001_reads_no_order_by_cex :
    hasOrderBy Part001.productosSelectSql = false ∧
    Part001.getProductos dbEmpty =
      (⟨200, .rows []⟩, [⟨Part001.productosSelectSql, []⟩]) := by
  decide

/-- C7 (amended): in `src/index.js` each read endpoint issues its fixed
SELECT, whose text does carry an ORDER BY on the entity's primary-key
column, and under the modelled store returns every row of the table
(a permutation of it) sorted ascending by that column, with no
pagination; the `part_001` variant's SELECTs carry no ORDER BY. -/
theorem indexjs_reads_sorted_by_pk (s : ReadStore) :
    IndexJs.getProductos (readDb s) =
      (⟨200, .rows (sortRows "id_producto" s.productos)⟩,
       [⟨IndexJs.productosSelectSql, []⟩]) ∧
    (sortRows "id_producto" s.productos).Pairwise
      (fun a b => leKey "id_producto" a b = true) ∧
    List.Perm (sortRows "id_producto" s.productos) s.productos ∧
    hasOrderBy IndexJs.productosSelectSql = true ∧
    IndexJs.getClientes (readDb s) =
      (⟨200, .rows (sortRows "id_cliente" s.clientes)⟩,
       [⟨IndexJs.clientesSelectSql, []⟩]) ∧
    (sortRows "id_cliente" s.clientes).Pairwise
      (fun a b => leKey "id_cliente" a b = true) ∧
    List.Perm (sortRows "id_cliente" s.clientes) s.clientes ∧
    hasOrderBy IndexJs.clientesSelectSql = true ∧
    IndexJs.getOrdenes (readDb s) =
      (⟨200, .rows (sortRows "id_orden" s.ordenes)⟩,
       [⟨IndexJs.ordenesSelectSql, []⟩]) ∧
    (sortRows "id_orden" s.ordenes).Pairwise
      (fun a b => leKey "id_orden" a b = true) ∧
    List.Perm (sortRows "id_orden" s.ordenes) s.ordenes ∧
    hasOrderBy IndexJs.ordenesSelectSql = true := by
  refine ⟨?_, sortRows_pairwise _ _, sortRows_perm _ _, by decide,
          ?_, sortRows_pairwise _ _, sortRows_perm _ _, by decide,
          ?_, sortRows_pairwise _ _, sortRows_perm _ _, by decide⟩
  · simp [IndexJs.getProductos, readDb]
  · simp [IndexJs.getClientes, readDb, IndexJs.clientesSelectSql,
      IndexJs.productosSelectSql]
  · simp [IndexJs.getOrdenes, readDb, IndexJs.ordenesSelectSql,
      IndexJs.productosSelectSql, IndexJs.clientesSelectSql]

end ApiRender
